import Mathlib

/-!
Verification of the assignment lifecycle and conflict-resolution workflow of
the projo-web personnel dashboard.

The definitions below are a shallow embedding of the TypeScript sources:

* `src/services/api/assignments/assignments.service.ts`
  (`listAssignments`, `getActiveIncumbentForPosition`, `assignPrimary`,
  `assignSecondary`, `startTempCoverage`, `endAssignment`, and the helpers
  `toNullIfBlank`, `rotationOrDefault`),
* `src/services/api/assignments/assignments.queries.ts`
  (`useWorkerActiveAssignment`, `useAssignWorker`),
* `src/services/api/_shared/audit.ts` (`logAudit`),
* `src/pages/assignments/NewAssignmentModal.tsx`
  (`canSubmit`, `activePrimaryByWorkerId`, `submit` / `confirmOverride`).

The remote PostgREST table is modelled as a `List Assignment`; a service call
is a function from a `ServiceState` (assignment rows plus the audit_logs
table) to a new state together with an `Except AppError` result, so the
external-call effects of each function are explicit.  Identifiers and
timestamps that the database generates are passed in through `RowMeta`, and
the impure `todayIsoDate()` / `new Date().toISOString()` values are passed as
explicit arguments.
-/

namespace ProjoWeb

/-- Model of the JavaScript `String.prototype.trim()` used throughout the
service code: strip leading and trailing whitespace characters. -/
def jsTrim (s : String) : String :=
  ⟨((s.data.dropWhile Char.isWhitespace).reverse.dropWhile Char.isWhitespace).reverse⟩

theorem dropWhile_dropWhile_self {α : Type} (p : α → Bool) (l : List α) :
    (l.dropWhile p).dropWhile p = l.dropWhile p := by
  induction l with
  | nil => rfl
  | cons c cs ih =>
      by_cases h : p c
      · simp [List.dropWhile_cons, h, ih]
      · simp [List.dropWhile_cons, h]

theorem dropWhile_head_false {α : Type} (p : α → Bool) (l : List α) :
    l.dropWhile p = [] ∨ ∃ c cs, l.dropWhile p = c :: cs ∧ p c = false := by
  induction l with
  | nil => exact Or.inl rfl
  | cons c cs ih =>
      by_cases h : p c
      · simpa [List.dropWhile_cons, h] using ih
      · exact Or.inr ⟨c, cs, by simp [List.dropWhile_cons, h]⟩

/-- The right-trim step `(l.reverse.dropWhile p).reverse` removes a suffix,
hence returns a prefix of `l`. -/
theorem reverse_dropWhile_reverse_prefix {α : Type} (p : α → Bool) (l : List α) :
    (l.reverse.dropWhile p).reverse <+: l := by
  obtain ⟨t, ht⟩ := List.dropWhile_suffix (l := l.reverse) p
  refine ⟨t.reverse, ?_⟩
  have := congrArg List.reverse ht
  simpa using this

theorem dropWhile_reverse_dropWhile_reverse {α : Type} (p : α → Bool) (y : List α)
    (hy : y.dropWhile p = y) :
    ((y.reverse.dropWhile p).reverse).dropWhile p = (y.reverse.dropWhile p).reverse := by
  obtain ⟨t, ht⟩ := reverse_dropWhile_reverse_prefix p y
  cases hz : (y.reverse.dropWhile p).reverse with
  | nil => rfl
  | cons c rest =>
      have hyc : y = c :: (rest ++ t) := by
        rw [← ht, hz]; rfl
      rcases dropWhile_head_false p y with h0 | ⟨c', cs', hcs, hpc⟩
      · rw [hy] at h0; simp [hyc] at h0
      · rw [hy, hyc] at hcs
        have hc : c = c' := by
          simpa using congrArg List.head? hcs
        have hpc' : p c = false := by rw [hc]; exact hpc
        rw [List.dropWhile_cons, hpc']
        simp

theorem jsTrim_idem (s : String) : jsTrim (jsTrim s) = jsTrim s := by
  apply congrArg String.mk
  show ((((((s.data.dropWhile Char.isWhitespace).reverse.dropWhile
      Char.isWhitespace).reverse).dropWhile
      Char.isWhitespace).reverse.dropWhile Char.isWhitespace).reverse) = _
  rw [dropWhile_reverse_dropWhile_reverse Char.isWhitespace
      (s.data.dropWhile Char.isWhitespace) (dropWhile_dropWhile_self _ _)]
  rw [List.reverse_reverse, dropWhile_dropWhile_self]

theorem string_eq_empty_iff (s : String) : s = "" ↔ s.data = [] := by
  cases s with
  | mk d =>
      constructor
      · intro h
        have := congrArg String.data h
        simpa using this
      · intro h
        subst h
        rfl

theorem string_length_eq_zero_iff (s : String) : s.length = 0 ↔ s = "" := by
  rw [string_eq_empty_iff]
  exact List.length_eq_zero

/-! ### Data model -/

/-- The `assignment_type` enumeration of the `assignments` table. -/
inductive AssignmentType where
  | PRIMARY
  | SECONDARY
  | TEMP_COVERAGE
deriving DecidableEq

/-- One row of the `api.assignments` table, as selected by the service layer
(`select("*")`).  `id` and `created_at` are generated by the database. -/
structure Assignment where
  id : String
  created_at : String
  worker_id : String
  project_id : String
  position_id : String
  assignment_type : AssignmentType
  assignment_start_date : String
  assignment_end_date : Option String
  rotation_schedule : Option String
  opcon_supervisor_id : Option String
  status : String
  notes : Option String
  override_reason : Option String
  ended_at : Option String
deriving DecidableEq

/-- Error codes of `AppError` in `src/services/api/_shared/errors.ts`. -/
inductive AppErrorCode where
  | VALIDATION_ERROR
  | NOT_FOUND
  | FORBIDDEN
  | UNAUTHORIZED
  | CONFLICT
  | DB_ERROR
  | UNKNOWN
deriving DecidableEq

/-- The canonical service-layer error (`AppError` class). -/
structure AppError where
  code : AppErrorCode
  message : String
deriving DecidableEq

/-- One row inserted into `audit_logs` by `logAudit`
(`src/services/api/_shared/audit.ts`).  JSONB payloads are modelled as
opaque optional strings. -/
structure AuditLogInput where
  entity_type : String
  entity_id : String
  action : String
  field_changed : Option String := none
  old_value : Option String := none
  new_value : Option String := none
  note : Option String := none
deriving DecidableEq

/-- The observable external state touched by the service layer: the
`api.assignments` table and the `audit_logs` table. -/
structure ServiceState where
  assignments : List Assignment
  audit_logs : List AuditLogInput
deriving DecidableEq

/-- Database-generated metadata for a freshly inserted row. -/
structure RowMeta where
  id : String
  created_at : String
deriving DecidableEq

/-- Function `logAudit` appends one row to `audit_logs`. -/
def logAudit (st : ServiceState) (input : AuditLogInput) : ServiceState :=
  { st with audit_logs := st.audit_logs ++ [input] }

/-! ### Service helpers (`assignments.service.ts`) -/

/-- Helper `toNullIfBlank`: normalize empty strings to null. -/
def toNullIfBlank (v : Option String) : Option String :=
  let s := jsTrim (v.getD "")
  if s.length = 0 then none else some s

/-- Helper `rotationOrDefault`: blank rotation schedules become `"14/14"`. -/
def rotationOrDefault (v : Option String) : String :=
  let s := jsTrim (v.getD "")
  if s.length = 0 then "14/14" else s

/-- The guard pattern `!input?.field?.trim()`: the field is absent or blank
after trimming. -/
def isBlank (v : Option String) : Bool :=
  jsTrim (v.getD "") == ""

/-! ### Query layer (`listAssignments` and the lookup helpers) -/

/-- Parameters of `listAssignments` (type `ListAssignmentsParams`). -/
structure ListAssignmentsParams where
  includeEnded : Bool := false
  workerId : Option String := none
  projectId : Option String := none
  positionId : Option String := none
  type : Option AssignmentType := none
  page : Option Nat := none
  pageSize : Option Nat := none

/-- An `if (param) q = q.eq(column, param)` filter: it is applied only when
the parameter is present and truthy (a non-empty string). -/
def optStrMatch (v : Option String) (column : String) : Bool :=
  match v with
  | none => true
  | some w => if w == "" then true else column == w

/-- The conjunction of filters `listAssignments` attaches to its query. -/
def matchesListFilters (p : ListAssignmentsParams) (a : Assignment) : Bool :=
  (p.includeEnded || decide (a.ended_at = none)) &&
  optStrMatch p.workerId a.worker_id &&
  optStrMatch p.projectId a.project_id &&
  optStrMatch p.positionId a.position_id &&
  (match p.type with
   | none => true
   | some t => decide (a.assignment_type = t))

/-- Descending order on `assignment_start_date`
(`order("assignment_start_date", { ascending: false })`). -/
abbrev startDateDesc (a b : Assignment) : Prop :=
  b.assignment_start_date ≤ a.assignment_start_date

instance : DecidableRel startDateDesc := fun a b =>
  inferInstanceAs (Decidable (b.assignment_start_date ≤ a.assignment_start_date))

instance : IsTotal Assignment startDateDesc :=
  ⟨fun a b => le_total b.assignment_start_date a.assignment_start_date⟩

instance : IsTrans Assignment startDateDesc :=
  ⟨fun _ _ _ hab hbc => le_trans hbc hab⟩

/-- Descending order on `created_at`
(`order("created_at", { ascending: false })`). -/
abbrev createdAtDesc (a b : Assignment) : Prop :=
  b.created_at ≤ a.created_at

instance : DecidableRel createdAtDesc := fun a b =>
  inferInstanceAs (Decidable (b.created_at ≤ a.created_at))

instance : IsTotal Assignment createdAtDesc :=
  ⟨fun a b => le_total b.created_at a.created_at⟩

instance : IsTrans Assignment createdAtDesc :=
  ⟨fun _ _ _ hab hbc => le_trans hbc hab⟩

/-- Function `listAssignments`: filter, order by `assignment_start_date` descending,
optional `range` pagination (applied only when `page && pageSize` is truthy). -/
def listAssignments (rows : List Assignment) (p : ListAssignmentsParams) :
    List Assignment :=
  let filtered := rows.filter (matchesListFilters p)
  let ordered := List.insertionSort startDateDesc filtered
  match p.page, p.pageSize with
  | some page, some pageSize =>
      if page == 0 || pageSize == 0 then ordered
      else (ordered.drop ((page - 1) * pageSize)).take pageSize
  | _, _ => ordered

/-- Function `listAssignmentsByWorker`. -/
def listAssignmentsByWorker (rows : List Assignment) (workerId : String)
    (includeEnded : Bool := false) : List Assignment :=
  listAssignments rows { workerId := some workerId, includeEnded := includeEnded }

/-- The query function of the `useWorkerActiveAssignment` hook: the most
recent active assignment of a worker, `items[0] ?? null`. -/
def useWorkerActiveAssignment (rows : List Assignment) (workerId : String) :
    Option Assignment :=
  (listAssignmentsByWorker rows workerId false).head?

/-- Function `getActiveIncumbentForPosition`: active PRIMARY/SECONDARY row for a
position, newest `created_at` first, `limit(1)`, `data?.[0] ?? null`. -/
def getActiveIncumbentForPosition (rows : List Assignment) (positionId : String) :
    Option Assignment :=
  if jsTrim positionId == "" then none
  else
    let found := rows.filter (fun a =>
      decide (a.position_id = positionId) &&
      (decide (a.assignment_type = .PRIMARY) || decide (a.assignment_type = .SECONDARY)) &&
      decide (a.ended_at = none))
    ((List.insertionSort createdAtDesc found).take 1).head?

/-! ### Assignment writers -/

/-- Input of `assignPrimary` / `assignSecondary`
(type `CreateIncumbentAssignmentInput`); optional fields model
`undefined`/`null`. -/
structure CreateIncumbentAssignmentInput where
  worker_id : Option String := none
  project_id : Option String := none
  position_id : Option String := none
  assignment_start_date : Option String := none
  assignment_end_date : Option String := none
  rotation_schedule : Option String := none
  opcon_supervisor_id : Option String := none
  notes : Option String := none
  override_reason : Option String := none
deriving DecidableEq

/-- Input of `startTempCoverage` (type `CreateTempCoverageInput`); it has the
same field set, with the dates and the reason required by validation. -/
abbrev CreateTempCoverageInput := CreateIncumbentAssignmentInput

/-- Input of `endAssignment` (type `EndAssignmentInput`). -/
structure EndAssignmentInput where
  assignmentId : Option String := none
  endStatus : Option String := none
  endedAtIso : Option String := none
deriving DecidableEq

/-- The payload object built by `assignPrimary` (plus the database-generated
`id` and `created_at`). -/
def primaryPayloadRow (meta : RowMeta) (todayIsoDate : String)
    (input : CreateIncumbentAssignmentInput) : Assignment := {
  id := meta.id
  created_at := meta.created_at
  worker_id := input.worker_id.getD ""
  project_id := input.project_id.getD ""
  position_id := input.position_id.getD ""
  assignment_type := .PRIMARY
  assignment_start_date := input.assignment_start_date.getD todayIsoDate
  assignment_end_date := input.assignment_end_date
  rotation_schedule := some (rotationOrDefault input.rotation_schedule)
  opcon_supervisor_id := toNullIfBlank input.opcon_supervisor_id
  status := "active"
  notes := toNullIfBlank input.notes
  override_reason := none
  ended_at := none }

/-- Function `assignPrimary`: validate worker/project/position, then insert a PRIMARY
row.  `todayIsoDate` is the value of the impure `todayIsoDate()` helper. -/
def assignPrimary (st : ServiceState) (meta : RowMeta) (todayIsoDate : String)
    (input : CreateIncumbentAssignmentInput) :
    ServiceState × Except AppError Assignment :=
  if isBlank input.worker_id then
    (st, .error ⟨.VALIDATION_ERROR, "worker_id is required."⟩)
  else if isBlank input.project_id then
    (st, .error ⟨.VALIDATION_ERROR, "project_id is required."⟩)
  else if isBlank input.position_id then
    (st, .error ⟨.VALIDATION_ERROR, "position_id is required."⟩)
  else
    let row := primaryPayloadRow meta todayIsoDate input
    ({ st with assignments := st.assignments ++ [row] }, .ok row)

/-- The payload object built by `assignSecondary`; `reason` is the trimmed
`override_reason` produced by the validation step. -/
def secondaryPayloadRow (meta : RowMeta) (todayIsoDate : String)
    (input : CreateIncumbentAssignmentInput) (reason : String) : Assignment := {
  id := meta.id
  created_at := meta.created_at
  worker_id := input.worker_id.getD ""
  project_id := input.project_id.getD ""
  position_id := input.position_id.getD ""
  assignment_type := .SECONDARY
  assignment_start_date := input.assignment_start_date.getD todayIsoDate
  assignment_end_date := input.assignment_end_date
  rotation_schedule := some (rotationOrDefault input.rotation_schedule)
  opcon_supervisor_id := toNullIfBlank input.opcon_supervisor_id
  status := "active"
  notes := toNullIfBlank input.notes
  override_reason := some reason
  ended_at := none }

/-- Function `assignSecondary`: like `assignPrimary`, with a required non-blank
`override_reason` (stored trimmed). -/
def assignSecondary (st : ServiceState) (meta : RowMeta) (todayIsoDate : String)
    (input : CreateIncumbentAssignmentInput) :
    ServiceState × Except AppError Assignment :=
  if isBlank input.worker_id then
    (st, .error ⟨.VALIDATION_ERROR, "worker_id is required."⟩)
  else if isBlank input.project_id then
    (st, .error ⟨.VALIDATION_ERROR, "project_id is required."⟩)
  else if isBlank input.position_id then
    (st, .error ⟨.VALIDATION_ERROR, "position_id is required."⟩)
  else
    match toNullIfBlank input.override_reason with
    | none => (st, .error ⟨.VALIDATION_ERROR, "override_reason is required for SECONDARY."⟩)
    | some reason =>
        let row := secondaryPayloadRow meta todayIsoDate input reason
        ({ st with assignments := st.assignments ++ [row] }, .ok row)

/-- The payload object built by `startTempCoverage`. -/
def tempCoveragePayloadRow (meta : RowMeta)
    (input : CreateTempCoverageInput) : Assignment := {
  id := meta.id
  created_at := meta.created_at
  worker_id := input.worker_id.getD ""
  project_id := input.project_id.getD ""
  position_id := input.position_id.getD ""
  assignment_type := .TEMP_COVERAGE
  assignment_start_date := input.assignment_start_date.getD ""
  assignment_end_date := input.assignment_end_date
  rotation_schedule := toNullIfBlank input.rotation_schedule
  opcon_supervisor_id := toNullIfBlank input.opcon_supervisor_id
  status := "active"
  notes := toNullIfBlank input.notes
  override_reason := toNullIfBlank input.override_reason
  ended_at := none }

/-- Function `startTempCoverage`: validate worker/project/position, both dates and the
reason, then insert a TEMP_COVERAGE row. -/
def startTempCoverage (st : ServiceState) (meta : RowMeta)
    (input : CreateTempCoverageInput) :
    ServiceState × Except AppError Assignment :=
  if isBlank input.worker_id then
    (st, .error ⟨.VALIDATION_ERROR, "worker_id is required."⟩)
  else if isBlank input.project_id then
    (st, .error ⟨.VALIDATION_ERROR, "project_id is required."⟩)
  else if isBlank input.position_id then
    (st, .error ⟨.VALIDATION_ERROR, "position_id is required."⟩)
  else if isBlank input.assignment_start_date then
    (st, .error ⟨.VALIDATION_ERROR, "assignment_start_date is required for TEMP_COVERAGE."⟩)
  else if isBlank input.assignment_end_date then
    (st, .error ⟨.VALIDATION_ERROR, "assignment_end_date is required for TEMP_COVERAGE."⟩)
  else if (toNullIfBlank input.override_reason).isNone then
    (st, .error ⟨.VALIDATION_ERROR, "override_reason is required for TEMP_COVERAGE."⟩)
  else
    let row := tempCoveragePayloadRow meta input
    ({ st with assignments := st.assignments ++ [row] }, .ok row)

/-- Function `endAssignment`: set `ended_at` (supplied or "now") and `status`
(supplied or `"completed"`) on the row with the given id; `select().single()`
errors unless exactly one row was updated.  `now` is the value of
`new Date().toISOString()`. -/
def endAssignment (st : ServiceState) (now : String)
    (input : EndAssignmentInput) : ServiceState × Except AppError Assignment :=
  if isBlank input.assignmentId then
    (st, .error ⟨.VALIDATION_ERROR, "assignmentId is required."⟩)
  else
    let aid := input.assignmentId.getD ""
    let endStatus := input.endStatus.getD "completed"
    let endedAt := input.endedAtIso.getD now
    let newRows := st.assignments.map (fun a =>
      if a.id = aid then { a with ended_at := some endedAt, status := endStatus } else a)
    let st' := { st with assignments := newRows }
    match newRows.filter (fun a => a.id == aid) with
    | [r] => (st', .ok r)
    | _ => (st', .error ⟨.DB_ERROR, "JSON object requested, multiple (or no) rows returned"⟩)

/-! ### New-assignment modal (`NewAssignmentModal.tsx` + `useAssignWorker`) -/

/-- The modal's `canSubmit` guard (without the `isPending` transport flag). -/
def canSubmit (projectId positionId workerId startDate rotationSchedule : String) :
    Bool :=
  !(projectId == "") && !(positionId == "") && !(workerId == "") &&
  !(startDate == "") && !(jsTrim rotationSchedule == "")

/-- The modal's `activePrimaryByWorkerId` map lookup: the active PRIMARY
rows are fetched through `useAssignmentsList`, written into a map keyed by
`worker_id` (later rows overwrite earlier ones), and queried by worker id. -/
def activePrimaryByWorkerId (rows : List Assignment) (workerId : String) :
    Option Assignment :=
  (listAssignments rows { includeEnded := false, type := some .PRIMARY }).reverse.find?
    (fun a => a.worker_id == workerId)

/-- The modal's `requiresOverride` flag: the selected worker has an active
PRIMARY assignment. -/
def requiresOverride (rows : List Assignment) (workerId : String) : Bool :=
  (activePrimaryByWorkerId rows workerId).isSome

/-- The assignment-type resolution performed by `submit`/`confirmOverride`:
a conflicted worker resolves to SECONDARY with a required override, an
unconflicted worker resolves to PRIMARY. -/
def resolveType (rows : List Assignment) (workerId : String) :
    AssignmentType × Bool :=
  if requiresOverride rows workerId then (.SECONDARY, true) else (.PRIMARY, false)

/-- The combined `submit` / `confirmOverride` flow of the modal, routed
through `useAssignWorker`: `none` as second component means no write was
attempted (guard failed, or the override dialog is waiting for a non-blank
reason). -/
def newAssignmentSubmit (st : ServiceState) (meta : RowMeta) (todayIsoDate : String)
    (projectId positionId workerId startDate rotationSchedule overrideReason : String) :
    ServiceState × Option (Except AppError Assignment) :=
  if !(canSubmit projectId positionId workerId startDate rotationSchedule) then
    (st, none)
  else
    let basePayload : CreateIncumbentAssignmentInput := {
      worker_id := some workerId
      project_id := some projectId
      position_id := some positionId
      assignment_start_date := some startDate
      assignment_end_date := none
      rotation_schedule := some (jsTrim rotationSchedule)
      opcon_supervisor_id := none
      notes := none
      override_reason := none }
    match activePrimaryByWorkerId st.assignments workerId with
    | some _ =>
        if jsTrim overrideReason == "" then (st, none)
        else
          let out := assignSecondary st meta todayIsoDate
            { basePayload with override_reason := some (jsTrim overrideReason) }
          (out.1, some out.2)
    | none =>
        let out := assignPrimary st meta todayIsoDate basePayload
        (out.1, some out.2)

/-! ### Generic lemmas about the query layer -/

theorem take_one_head {α : Type} (l : List α) : (l.take 1).head? = l.head? := by
  cases l <;> rfl

theorem head_insertionSort_max {r : Assignment → Assignment → Prop}
    [DecidableRel r] [IsTotal Assignment r] [IsTrans Assignment r]
    {l : List Assignment} {a : Assignment}
    (h : (List.insertionSort r l).head? = some a) :
    a ∈ l ∧ ∀ b ∈ l, r a b := by
  have hs := List.sorted_insertionSort r l
  cases hsort : List.insertionSort r l with
  | nil => rw [hsort] at h; cases h
  | cons x xs =>
      rw [hsort] at h
      have hx : x = a := by simpa using h
      subst hx
      rw [hsort] at hs
      constructor
      · have hm : x ∈ List.insertionSort r l := by
          rw [hsort]; exact List.mem_cons_self x xs
        rwa [List.mem_insertionSort] at hm
      · intro b hb
        have hb' : b ∈ List.insertionSort r l := by rwa [List.mem_insertionSort]
        rw [hsort] at hb'
        rcases List.mem_cons.mp hb' with rfl | hb''
        · rcases IsTotal.total (r := r) b b with hr | hr <;> exact hr
        · exact List.rel_of_sorted_cons hs b hb''

theorem head_insertionSort_none {r : Assignment → Assignment → Prop}
    [DecidableRel r] {l : List Assignment}
    (h : l = []) : (List.insertionSort r l).head? = none := by
  subst h; rfl

/-- Membership in an active-and-typed `listAssignments` query. -/
theorem mem_listAssignments_active_type (rows : List Assignment)
    (t : AssignmentType) (a : Assignment) :
    a ∈ listAssignments rows { includeEnded := false, type := some t } ↔
      a ∈ rows ∧ a.ended_at = none ∧ a.assignment_type = t := by
  unfold listAssignments
  simp [List.mem_filter, matchesListFilters, optStrMatch, and_assoc]

/-- Membership in an active per-worker `listAssignments` query (non-empty
worker id). -/
theorem mem_listAssignments_active_worker (rows : List Assignment)
    (w : String) (hw : (w == "") = false) (a : Assignment) :
    a ∈ listAssignments rows { includeEnded := false, workerId := some w } ↔
      a ∈ rows ∧ a.ended_at = none ∧ a.worker_id = w := by
  unfold listAssignments
  simp [List.mem_filter, matchesListFilters, optStrMatch, hw, and_assoc]

/-- The modal's conflict map contains a worker exactly when the worker has an
active PRIMARY row in the store. -/
theorem activePrimaryByWorkerId_isSome_iff (rows : List Assignment) (w : String) :
    (activePrimaryByWorkerId rows w).isSome ↔
      ∃ a ∈ rows, a.worker_id = w ∧ a.assignment_type = .PRIMARY ∧ a.ended_at = none := by
  unfold activePrimaryByWorkerId
  rw [List.find?_isSome]
  constructor
  · rintro ⟨x, hx, hpx⟩
    rw [List.mem_reverse, mem_listAssignments_active_type] at hx
    exact ⟨x, hx.1, beq_iff_eq.mp hpx, hx.2.2, hx.2.1⟩
  · rintro ⟨x, hx, hw, ht, he⟩
    refine ⟨x, ?_, beq_iff_eq.mpr hw⟩
    rw [List.mem_reverse, mem_listAssignments_active_type]
    exact ⟨hx, he, ht⟩

/-! ### Blank-handling lemmas -/

theorem jsTrim_empty : jsTrim "" = "" := rfl

theorem nonblank_nonempty {s : String} (h : (jsTrim s == "") = false) :
    (s == "") = false := by
  cases hs : s == "" with
  | false => rfl
  | true =>
      have hs' : s = "" := beq_iff_eq.mp hs
      subst hs'
      rw [jsTrim_empty] at h
      simp at h

theorem isBlank_some (s : String) : isBlank (some s) = (jsTrim s == "") := rfl

theorem toNullIfBlank_some_trimmed {s : String} (h : (jsTrim s == "") = false) :
    toNullIfBlank (some (jsTrim s)) = some (jsTrim s) := by
  unfold toNullIfBlank
  simp only [Option.getD_some, jsTrim_idem]
  have hne : ¬ jsTrim s = "" := by
    intro he
    rw [he] at h
    simp at h
  rw [if_neg (fun hl => hne ((string_length_eq_zero_iff _).mp hl))]

theorem toNullIfBlank_eq_none_iff (v : Option String) :
    toNullIfBlank v = none ↔ isBlank v = true := by
  unfold toNullIfBlank isBlank
  constructor
  · intro h
    by_cases hl : (jsTrim (v.getD "")).length = 0
    · exact beq_iff_eq.mpr ((string_length_eq_zero_iff _).mp hl)
    · rw [if_neg hl] at h
      cases h
  · intro h
    have he : jsTrim (v.getD "") = "" := beq_iff_eq.mp h
    rw [if_pos ((string_length_eq_zero_iff _).mpr he)]

/-! ### Success / failure equations for the writers -/

theorem assignPrimary_ok (st : ServiceState) (meta : RowMeta)
    (todayIsoDate : String) (input : CreateIncumbentAssignmentInput)
    (hw : isBlank input.worker_id = false)
    (hpj : isBlank input.project_id = false)
    (hpos : isBlank input.position_id = false) :
    assignPrimary st meta todayIsoDate input =
      ({ st with assignments := st.assignments ++ [primaryPayloadRow meta todayIsoDate input] },
        .ok (primaryPayloadRow meta todayIsoDate input)) := by
  unfold assignPrimary
  rw [hw, hpj, hpos]
  rfl

theorem assignSecondary_ok (st : ServiceState) (meta : RowMeta)
    (todayIsoDate : String) (input : CreateIncumbentAssignmentInput)
    (hw : isBlank input.worker_id = false)
    (hpj : isBlank input.project_id = false)
    (hpos : isBlank input.position_id = false)
    {reason : String} (hr : toNullIfBlank input.override_reason = some reason) :
    assignSecondary st meta todayIsoDate input =
      ({ st with assignments := st.assignments ++ [secondaryPayloadRow meta todayIsoDate input reason] },
        .ok (secondaryPayloadRow meta todayIsoDate input reason)) := by
  unfold assignSecondary
  rw [hw, hpj, hpos, hr]
  rfl

theorem startTempCoverage_ok (st : ServiceState) (meta : RowMeta)
    (input : CreateTempCoverageInput)
    (hw : isBlank input.worker_id = false)
    (hpj : isBlank input.project_id = false)
    (hpos : isBlank input.position_id = false)
    (hsd : isBlank input.assignment_start_date = false)
    (hed : isBlank input.assignment_end_date = false)
    (hor : (toNullIfBlank input.override_reason).isNone = false) :
    startTempCoverage st meta input =
      ({ st with assignments := st.assignments ++ [tempCoveragePayloadRow meta input] },
        .ok (tempCoveragePayloadRow meta input)) := by
  unfold startTempCoverage
  rw [hw, hpj, hpos, hsd, hed, hor]
  rfl

theorem rotationOrDefault_blank {v : Option String} (h : isBlank v = true) :
    rotationOrDefault v = "14/14" := by
  unfold rotationOrDefault
  rw [if_pos ((string_length_eq_zero_iff _).mpr (beq_iff_eq.mp h))]

theorem rotationOrDefault_nonblank {v : Option String} (h : isBlank v = false) :
    rotationOrDefault v = jsTrim (v.getD "") := by
  unfold rotationOrDefault
  rw [if_neg]
  intro hl
  have he : jsTrim (v.getD "") = "" := (string_length_eq_zero_iff _).mp hl
  unfold isBlank at h
  rw [he] at h
  simp at h

/-! ### Concrete inputs used by witnesses and counterexamples -/

def exMeta : RowMeta := { id := "a1", created_at := "2026-01-02T10:00:00Z" }

def exState0 : ServiceState := { assignments := [], audit_logs := [] }

def exIncumbentInput : CreateIncumbentAssignmentInput := {
  worker_id := some "w1"
  project_id := some "p1"
  position_id := some "pos1"
  assignment_start_date := some "2026-01-02"
  override_reason := some "covering shortage" }

/-! ### Claim theorems -/

/-- C8: every row written by `assignPrimary`, `assignSecondary` or
`startTempCoverage` has `status = "active"` and `ended_at = null`
unconditionally, so every assignment is created in the active state and the
`status` column mirrors the `ended_at` null fact at creation. -/
theorem created_rows_are_active (st : ServiceState) (meta : RowMeta)
    (todayIsoDate : String) (input : CreateIncumbentAssignmentInput)
    (r : Assignment) :
    ((assignPrimary st meta todayIsoDate input).2 = .ok r →
        r.status = "active" ∧ r.ended_at = none) ∧
    ((assignSecondary st meta todayIsoDate input).2 = .ok r →
        r.status = "active" ∧ r.ended_at = none) ∧
    ((startTempCoverage st meta input).2 = .ok r →
        r.status = "active" ∧ r.ended_at = none) := by
  refine ⟨?_, ?_, ?_⟩ <;> intro h
  · unfold assignPrimary at h
    repeat' split at h
    all_goals first
      | exact Except.noConfusion h
      | (injection h with h; exact ⟨h ▸ rfl, h ▸ rfl⟩)
  · unfold assignSecondary at h
    repeat' split at h
    all_goals first
      | exact Except.noConfusion h
      | (injection h with h; exact ⟨h ▸ rfl, h ▸ rfl⟩)
  · unfold startTempCoverage at h
    repeat' split at h
    all_goals first
      | exact Except.noConfusion h
      | (injection h with h; exact ⟨h ▸ rfl, h ▸ rfl⟩)

/-- Witness for C8: a concrete successful `assignPrimary` call produces an
active row. -/
theorem created_rows_are_active_witness :
    (primaryPayloadRow exMeta "2026-01-02" exIncumbentInput).status = "active" ∧
    (primaryPayloadRow exMeta "2026-01-02" exIncumbentInput).ended_at = none :=
  (created_rows_are_active exState0 exMeta "2026-01-02" exIncumbentInput
    (primaryPayloadRow exMeta "2026-01-02" exIncumbentInput)).1 (by rfl)

/-- C10: `assignPrimary` stores `override_reason = null` for every input —
a caller-supplied override reason on a PRIMARY create is silently discarded,
not rejected. -/
theorem assignPrimary_discards_override_reason (st : ServiceState)
    (meta : RowMeta) (todayIsoDate : String)
    (input : CreateIncumbentAssignmentInput)
    (hw : isBlank input.worker_id = false)
    (hpj : isBlank input.project_id = false)
    (hpos : isBlank input.position_id = false) :
    ∃ r, (assignPrimary st meta todayIsoDate input).2 = .ok r ∧
      r.override_reason = none := by
  rw [assignPrimary_ok st meta todayIsoDate input hw hpj hpos]
  exact ⟨_, rfl, rfl⟩

/-- Witness for C10: the caller supplies a non-empty `override_reason`
(`"covering shortage"`), yet the PRIMARY write succeeds and stores null. -/
theorem assignPrimary_discards_override_reason_witness :
    exIncumbentInput.override_reason = some "covering shortage" ∧
    ∃ r, (assignPrimary exState0 exMeta "2026-01-02" exIncumbentInput).2 = .ok r ∧
      r.override_reason = none :=
  ⟨rfl, assignPrimary_discards_override_reason exState0 exMeta "2026-01-02"
    exIncumbentInput (by decide) (by decide) (by decide)⟩

/-- C9: for `assignPrimary`/`assignSecondary` a missing or blank
`rotation_schedule` is stored as `"14/14"` and a non-blank value is stored
trimmed; for `startTempCoverage` a missing or blank `rotation_schedule` is
stored as null. -/
theorem rotation_schedule_defaulting (st : ServiceState) (meta : RowMeta)
    (todayIsoDate : String) (input : CreateIncumbentAssignmentInput)
    (r : Assignment) :
    ((assignPrimary st meta todayIsoDate input).2 = .ok r →
        (isBlank input.rotation_schedule = true → r.rotation_schedule = some "14/14") ∧
        (isBlank input.rotation_schedule = false →
            r.rotation_schedule = some (jsTrim (input.rotation_schedule.getD "")))) ∧
    ((assignSecondary st meta todayIsoDate input).2 = .ok r →
        (isBlank input.rotation_schedule = true → r.rotation_schedule = some "14/14") ∧
        (isBlank input.rotation_schedule = false →
            r.rotation_schedule = some (jsTrim (input.rotation_schedule.getD "")))) ∧
    ((startTempCoverage st meta input).2 = .ok r →
        isBlank input.rotation_schedule = true → r.rotation_schedule = none) := by
  refine ⟨?_, ?_, ?_⟩ <;> intro h
  · unfold assignPrimary at h
    repeat' split at h
    all_goals first
      | exact Except.noConfusion h
      | (injection h with h
         refine ⟨fun hb => ?_, fun hb => ?_⟩
         · rw [← h]
           show some (rotationOrDefault input.rotation_schedule) = some "14/14"
           rw [rotationOrDefault_blank hb]
         · rw [← h]
           show some (rotationOrDefault input.rotation_schedule) = _
           rw [rotationOrDefault_nonblank hb])
  · unfold assignSecondary at h
    repeat' split at h
    all_goals first
      | exact Except.noConfusion h
      | (injection h with h
         refine ⟨fun hb => ?_, fun hb => ?_⟩
         · rw [← h]
           show some (rotationOrDefault input.rotation_schedule) = some "14/14"
           rw [rotationOrDefault_blank hb]
         · rw [← h]
           show some (rotationOrDefault input.rotation_schedule) = _
           rw [rotationOrDefault_nonblank hb])
  · unfold startTempCoverage at h
    repeat' split at h
    all_goals first
      | exact Except.noConfusion h
      | (injection h with h
         intro hb
         rw [← h]
         show toNullIfBlank input.rotation_schedule = none
         exact (toNullIfBlank_eq_none_iff _).mpr hb)

/-- Witness for C9: creating a PRIMARY assignment with a blank
`rotation_schedule` yields a stored row with `rotation_schedule = "14/14"`. -/
theorem rotation_schedule_defaulting_witness :
    (primaryPayloadRow exMeta "2026-01-02" exIncumbentInput).rotation_schedule =
      some "14/14" :=
  ((rotation_schedule_defaulting exState0 exMeta "2026-01-02" exIncumbentInput
    (primaryPayloadRow exMeta "2026-01-02" exIncumbentInput)).1 (by rfl)).1 (by decide)

/-- C2: `assignSecondary` checks its required fields in the order
`worker_id`, `project_id`, `position_id`, `override_reason`; a missing or
blank field yields a `VALIDATION_ERROR` naming that first missing field with
the storage untouched, and when all four are non-blank the insert is
performed. -/
theorem assignSecondary_validation_order (st : ServiceState) (meta : RowMeta)
    (todayIsoDate : String) (input : CreateIncumbentAssignmentInput) :
    (isBlank input.worker_id = true →
        assignSecondary st meta todayIsoDate input =
          (st, .error ⟨.VALIDATION_ERROR, "worker_id is required."⟩)) ∧
    (isBlank input.worker_id = false → isBlank input.project_id = true →
        assignSecondary st meta todayIsoDate input =
          (st, .error ⟨.VALIDATION_ERROR, "project_id is required."⟩)) ∧
    (isBlank input.worker_id = false → isBlank input.project_id = false →
     isBlank input.position_id = true →
        assignSecondary st meta todayIsoDate input =
          (st, .error ⟨.VALIDATION_ERROR, "position_id is required."⟩)) ∧
    (isBlank input.worker_id = false → isBlank input.project_id = false →
     isBlank input.position_id = false → isBlank input.override_reason = true →
        assignSecondary st meta todayIsoDate input =
          (st, .error ⟨.VALIDATION_ERROR, "override_reason is required for SECONDARY."⟩)) ∧
    (isBlank input.worker_id = false → isBlank input.project_id = false →
     isBlank input.position_id = false → isBlank input.override_reason = false →
        ∃ r, assignSecondary st meta todayIsoDate input =
          ({ st with assignments := st.assignments ++ [r] }, .ok r)) := by
  refine ⟨?_, ?_, ?_, ?_, ?_⟩
  · intro h1
    unfold assignSecondary
    rw [if_pos h1]
  · intro h1 h2
    unfold assignSecondary
    rw [if_neg (by simp [h1]), if_pos h2]
  · intro h1 h2 h3
    unfold assignSecondary
    rw [if_neg (by simp [h1]), if_neg (by simp [h2]), if_pos h3]
  · intro h1 h2 h3 h4
    unfold assignSecondary
    rw [if_neg (by simp [h1]), if_neg (by simp [h2]), if_neg (by simp [h3]),
      (toNullIfBlank_eq_none_iff _).mpr h4]
  · intro h1 h2 h3 h4
    cases htn : toNullIfBlank input.override_reason with
    | none => exact absurd ((toNullIfBlank_eq_none_iff _).mp htn) (by simp [h4])
    | some reason =>
        exact ⟨_, assignSecondary_ok st meta todayIsoDate input h1 h2 h3 htn⟩

/-- Witness for C2: with valid ids but a blank `override_reason`, the call
fails with `VALIDATION_ERROR` naming `override_reason`, and with the reason
supplied the insert succeeds. -/
theorem assignSecondary_validation_order_witness :
    (assignSecondary exState0 exMeta "2026-01-02"
        { exIncumbentInput with override_reason := some "  " } =
      (exState0, .error ⟨.VALIDATION_ERROR, "override_reason is required for SECONDARY."⟩)) ∧
    ∃ r, assignSecondary exState0 exMeta "2026-01-02" exIncumbentInput =
      ({ exState0 with assignments := exState0.assignments ++ [r] }, .ok r) :=
  ⟨((assignSecondary_validation_order exState0 exMeta "2026-01-02"
      { exIncumbentInput with override_reason := some "  " }).2.2.2.1
      (by decide) (by decide) (by decide) (by decide)),
    ((assignSecondary_validation_order exState0 exMeta "2026-01-02"
      exIncumbentInput).2.2.2.2 (by decide) (by decide) (by decide) (by decide))⟩

/-- C5: `startTempCoverage` rejects any input whose `assignment_start_date`,
`assignment_end_date` or `override_reason` is missing or blank with a
`VALIDATION_ERROR` and no insert; when those and the three ids are non-blank
the insert is performed. -/
theorem startTempCoverage_validation (st : ServiceState) (meta : RowMeta)
    (input : CreateTempCoverageInput) :
    ((isBlank input.assignment_start_date || isBlank input.assignment_end_date ||
        isBlank input.override_reason) = true →
      ∃ msg, startTempCoverage st meta input =
        (st, .error ⟨.VALIDATION_ERROR, msg⟩)) ∧
    (isBlank input.worker_id = false → isBlank input.project_id = false →
     isBlank input.position_id = false →
     isBlank input.assignment_start_date = false →
     isBlank input.assignment_end_date = false →
     isBlank input.override_reason = false →
      ∃ r, startTempCoverage st meta input =
        ({ st with assignments := st.assignments ++ [r] }, .ok r)) := by
  constructor
  · intro h
    unfold startTempCoverage
    by_cases h1 : isBlank input.worker_id = true
    · rw [if_pos h1]; exact ⟨_, rfl⟩
    · rw [if_neg h1]
      by_cases h2 : isBlank input.project_id = true
      · rw [if_pos h2]; exact ⟨_, rfl⟩
      · rw [if_neg h2]
        by_cases h3 : isBlank input.position_id = true
        · rw [if_pos h3]; exact ⟨_, rfl⟩
        · rw [if_neg h3]
          by_cases h4 : isBlank input.assignment_start_date = true
          · rw [if_pos h4]; exact ⟨_, rfl⟩
          · rw [if_neg h4]
            by_cases h5 : isBlank input.assignment_end_date = true
            · rw [if_pos h5]; exact ⟨_, rfl⟩
            · rw [if_neg h5]
              have h6 : isBlank input.override_reason = true := by
                rcases Bool.or_eq_true _ _ |>.mp h with h' | h'
                · rcases Bool.or_eq_true _ _ |>.mp h' with h'' | h''
                  · exact absurd h'' h4
                  · exact absurd h'' h5
                · exact h'
              rw [if_pos (by
                rw [(toNullIfBlank_eq_none_iff _).mpr h6]
                rfl)]
              exact ⟨_, rfl⟩
  · intro h1 h2 h3 h4 h5 h6
    have hor : (toNullIfBlank input.override_reason).isNone = false := by
      cases htn : toNullIfBlank input.override_reason with
      | none => exact absurd ((toNullIfBlank_eq_none_iff _).mp htn) (by simp [h6])
      | some reason => rfl
    exact ⟨_, startTempCoverage_ok st meta input h1 h2 h3 h4 h5 hor⟩

/-- Witness for C5: omitting `assignment_end_date` fails with
`VALIDATION_ERROR`; supplying all fields succeeds. -/
theorem startTempCoverage_validation_witness :
    (∃ msg, startTempCoverage exState0 exMeta
        { exIncumbentInput with assignment_end_date := none } =
      (exState0, .error ⟨.VALIDATION_ERROR, msg⟩)) ∧
    ∃ r, startTempCoverage exState0 exMeta
        { exIncumbentInput with assignment_end_date := some "2026-02-01" } =
      ({ exState0 with assignments := exState0.assignments ++ [r] }, .ok r) :=
  ⟨(startTempCoverage_validation exState0 exMeta
      { exIncumbentInput with assignment_end_date := none }).1 (by decide),
    (startTempCoverage_validation exState0 exMeta
      { exIncumbentInput with assignment_end_date := some "2026-02-01" }).2
      (by decide) (by decide) (by decide) (by decide) (by decide) (by decide)⟩

/-- Counterexample for C4: a concrete `assignPrimary` call succeeds, yet no
audit entry is written — the `audit_logs` table stays empty, so the claim
that every successful create fires an audit entry through `logAudit` is
false on the code (the assignment service never calls `logAudit`). -/
theorem assignment_audit_counterexample :
    (∃ r, (assignPrimary exState0 exMeta "2026-01-02" exIncumbentInput).2 = .ok r) ∧
    (assignPrimary exState0 exMeta "2026-01-02" exIncumbentInput).1.audit_logs = [] :=
  ⟨⟨_, rfl⟩, rfl⟩

/-- C4 (amended): no call to `assignPrimary`, `assignSecondary`,
`startTempCoverage` or `endAssignment` ever writes an audit entry — the
`audit_logs` table is unchanged by every such call. -/
theorem assignment_ops_write_no_audit (st : ServiceState) (meta : RowMeta)
    (todayIsoDate now : String) (input : CreateIncumbentAssignmentInput)
    (endInput : EndAssignmentInput) :
    (assignPrimary st meta todayIsoDate input).1.audit_logs = st.audit_logs ∧
    (assignSecondary st meta todayIsoDate input).1.audit_logs = st.audit_logs ∧
    (startTempCoverage st meta input).1.audit_logs = st.audit_logs ∧
    (endAssignment st now endInput).1.audit_logs = st.audit_logs := by
  refine ⟨?_, ?_, ?_, ?_⟩
  · unfold assignPrimary
    repeat' split
    all_goals rfl
  · unfold assignSecondary
    repeat' split
    all_goals rfl
  · unfold startTempCoverage
    repeat' split
    all_goals rfl
  · unfold endAssignment
    split
    · rfl
    · dsimp only
      split
      all_goals rfl

/-- Membership in a plain active `listAssignments` query (all defaults,
`includeEnded = false`). -/
theorem mem_listAssignments_active (rows : List Assignment) (a : Assignment) :
    a ∈ listAssignments rows {} ↔ a ∈ rows ∧ a.ended_at = none := by
  unfold listAssignments
  simp [List.mem_filter, matchesListFilters, optStrMatch]

/-- The update patch of `endAssignment` keeps row ids. -/
theorem endAssignment_patch_id (aid endedAt endStatus : String) (a : Assignment) :
    ((if a.id = aid then
        { a with ended_at := some endedAt, status := endStatus } else a) : Assignment).id
      = a.id := by
  split <;> rfl

/-- Success equation of `endAssignment` when exactly one row carries the id. -/
theorem endAssignment_ok (st : ServiceState) (now : String)
    (input : EndAssignmentInput)
    (hid : isBlank input.assignmentId = false)
    {b : Assignment}
    (hfil : st.assignments.filter (fun a => a.id == input.assignmentId.getD "") = [b]) :
    endAssignment st now input =
      ({ st with assignments := st.assignments.map (fun a =>
          if a.id = input.assignmentId.getD "" then
            { a with ended_at := some (input.endedAtIso.getD now),
                     status := input.endStatus.getD "completed" }
          else a) },
        .ok { b with ended_at := some (input.endedAtIso.getD now),
                     status := input.endStatus.getD "completed" }) := by
  unfold endAssignment
  rw [if_neg (by simp [hid])]
  dsimp only
  have hcomp : ((fun a : Assignment => a.id == input.assignmentId.getD "") ∘
      (fun a : Assignment =>
        if a.id = input.assignmentId.getD "" then
          { a with ended_at := some (input.endedAtIso.getD now),
                   status := input.endStatus.getD "completed" }
        else a)) = fun a : Assignment => a.id == input.assignmentId.getD "" := by
    funext a
    simp only [Function.comp_apply]
    rw [endAssignment_patch_id (input.assignmentId.getD "")
      (input.endedAtIso.getD now) (input.endStatus.getD "completed") a]
  have hb : b.id = input.assignmentId.getD "" := by
    have hbm : b ∈ st.assignments.filter
        (fun a => a.id == input.assignmentId.getD "") := by
      rw [hfil]; exact List.mem_singleton.mpr rfl
    exact beq_iff_eq.mp (List.mem_filter.mp hbm).2
  rw [List.filter_map, hcomp, hfil]
  simp only [List.map_cons, List.map_nil, if_pos hb]

/-- C6: `endAssignment` with a non-blank id (and exactly one matching row)
returns the row with `ended_at = endedAtIso`-or-`now` and
`status = endStatus`-or-`"completed"`, and the ended row disappears from a
subsequent active (`includeEnded = false`) `listAssignments` query. -/
theorem endAssignment_defaults_and_exclusion (st : ServiceState) (now : String)
    (input : EndAssignmentInput)
    (hid : isBlank input.assignmentId = false)
    (hone : (st.assignments.filter
        (fun a => a.id == input.assignmentId.getD "")).length = 1) :
    ∃ r, (endAssignment st now input).2 = .ok r ∧
      r.ended_at = some (input.endedAtIso.getD now) ∧
      r.status = input.endStatus.getD "completed" ∧
      r.id = input.assignmentId.getD "" ∧
      ∀ a ∈ listAssignments (endAssignment st now input).1.assignments {},
        a.id ≠ input.assignmentId.getD "" := by
  obtain ⟨b, hb⟩ := List.length_eq_one.mp hone
  have hbid : b.id = input.assignmentId.getD "" := by
    have hbm : b ∈ st.assignments.filter
        (fun a => a.id == input.assignmentId.getD "") := by
      rw [hb]; exact List.mem_singleton.mpr rfl
    exact beq_iff_eq.mp (List.mem_filter.mp hbm).2
  rw [endAssignment_ok st now input hid hb]
  refine ⟨_, rfl, rfl, rfl, hbid, ?_⟩
  intro a ha heq
  rw [mem_listAssignments_active] at ha
  obtain ⟨hmem, hend⟩ := ha
  obtain ⟨b0, hb0mem, hb0⟩ := List.mem_map.mp hmem
  by_cases hcase : b0.id = input.assignmentId.getD ""
  · rw [if_pos hcase] at hb0
    rw [← hb0] at hend
    cases hend
  · rw [if_neg hcase] at hb0
    rw [← hb0] at heq
    exact hcase heq

/-- Witness store for the `endAssignment` claims: one active PRIMARY row. -/
def exActiveRow : Assignment := {
  id := "X"
  created_at := "2026-01-02T10:00:00Z"
  worker_id := "w1"
  project_id := "p1"
  position_id := "pos1"
  assignment_type := .PRIMARY
  assignment_start_date := "2026-01-02"
  assignment_end_date := none
  rotation_schedule := some "14/14"
  opcon_supervisor_id := none
  status := "active"
  notes := none
  override_reason := none
  ended_at := none }

/-- Witness for C6: cancelling the concrete active row `X` returns it with
`ended_at = now` and `status = "cancelled"`. -/
theorem endAssignment_defaults_and_exclusion_witness :
    ∃ r, (endAssignment { assignments := [exActiveRow], audit_logs := [] }
        "2026-03-01T00:00:00Z"
        { assignmentId := some "X", endStatus := some "cancelled" }).2 = .ok r ∧
      r.ended_at = some ((({ assignmentId := some "X", endStatus := some "cancelled" } :
          EndAssignmentInput)).endedAtIso.getD "2026-03-01T00:00:00Z") ∧
      r.status = (({ assignmentId := some "X", endStatus := some "cancelled" } :
          EndAssignmentInput)).endStatus.getD "completed" ∧
      r.id = (({ assignmentId := some "X", endStatus := some "cancelled" } :
          EndAssignmentInput)).assignmentId.getD "" ∧
      ∀ a ∈ listAssignments (endAssignment { assignments := [exActiveRow], audit_logs := [] }
          "2026-03-01T00:00:00Z"
          { assignmentId := some "X", endStatus := some "cancelled" }).1.assignments {},
        a.id ≠ (({ assignmentId := some "X", endStatus := some "cancelled" } :
          EndAssignmentInput)).assignmentId.getD "" :=
  endAssignment_defaults_and_exclusion
    { assignments := [exActiveRow], audit_logs := [] } "2026-03-01T00:00:00Z"
    { assignmentId := some "X", endStatus := some "cancelled" }
    (by decide) (by decide)

/-- C7: on a store where every row carrying the id is already ended,
`endAssignment` succeeds again (no error), overwrites `ended_at` with the
supplied-or-now timestamp (last write wins), and every row carrying the id
still has a non-null `ended_at` — the assignment is not resurrected. -/
theorem endAssignment_idempotent_nonnull (st : ServiceState) (now : String)
    (input : EndAssignmentInput)
    (hid : isBlank input.assignmentId = false)
    (_hended : ∀ a ∈ st.assignments,
        a.id = input.assignmentId.getD "" → a.ended_at ≠ none)
    (hone : (st.assignments.filter
        (fun a => a.id == input.assignmentId.getD "")).length = 1) :
    (∃ r, (endAssignment st now input).2 = .ok r ∧
        r.ended_at = some (input.endedAtIso.getD now)) ∧
    ∀ a ∈ (endAssignment st now input).1.assignments,
      a.id = input.assignmentId.getD "" → a.ended_at ≠ none := by
  obtain ⟨b, hb⟩ := List.length_eq_one.mp hone
  rw [endAssignment_ok st now input hid hb]
  refine ⟨⟨_, rfl, rfl⟩, ?_⟩
  intro a ha heq
  obtain ⟨b0, hb0mem, hb0⟩ := List.mem_map.mp ha
  by_cases hcase : b0.id = input.assignmentId.getD ""
  · rw [if_pos hcase] at hb0
    rw [← hb0]
    intro hcontra
    cases hcontra
  · rw [if_neg hcase] at hb0
    rw [← hb0] at heq
    exact absurd heq hcase

/-- Witness for C7: re-ending an already-cancelled row keeps `ended_at`
non-null and raises no error. -/
theorem endAssignment_idempotent_nonnull_witness :
    (∃ r, (endAssignment
        { assignments := [{ exActiveRow with
            ended_at := some "2026-02-01T00:00:00Z", status := "cancelled" }],
          audit_logs := [] }
        "2026-03-01T00:00:00Z" { assignmentId := some "X" }).2 = .ok r ∧
      r.ended_at = some ((({ assignmentId := some "X" } :
          EndAssignmentInput)).endedAtIso.getD "2026-03-01T00:00:00Z")) ∧
    ∀ a ∈ (endAssignment
        { assignments := [{ exActiveRow with
            ended_at := some "2026-02-01T00:00:00Z", status := "cancelled" }],
          audit_logs := [] }
        "2026-03-01T00:00:00Z" { assignmentId := some "X" }).1.assignments,
      a.id = (({ assignmentId := some "X" } :
          EndAssignmentInput)).assignmentId.getD "" → a.ended_at ≠ none :=
  endAssignment_idempotent_nonnull
    { assignments := [{ exActiveRow with
        ended_at := some "2026-02-01T00:00:00Z", status := "cancelled" }],
      audit_logs := [] }
    "2026-03-01T00:00:00Z" { assignmentId := some "X" }
    (by decide) (by decide) (by decide)

/-- A concrete active TEMP_COVERAGE row used by the C3 counterexample. -/
def exTempRow : Assignment := {
  id := "a9"
  created_at := "2026-01-01T00:00:00Z"
  worker_id := "w1"
  project_id := "p1"
  position_id := "pos1"
  assignment_type := .TEMP_COVERAGE
  assignment_start_date := "2026-01-01"
  assignment_end_date := some "2026-02-01"
  rotation_schedule := none
  opcon_supervisor_id := none
  status := "active"
  notes := none
  override_reason := none
  ended_at := none }

/-- Counterexample for C3: the worker-level lookup
(`useWorkerActiveAssignment`) is not restricted to PRIMARY rows — on a store
whose only row is an active TEMP_COVERAGE assignment of worker w1 (so the
store holds zero PRIMARY rows), the lookup returns that row instead of the
null the claim requires. -/
theorem worker_lookup_not_restricted_to_primary :
    useWorkerActiveAssignment [exTempRow] "w1" = some exTempRow ∧
    exTempRow.ended_at = none ∧
    exTempRow.assignment_type ≠ .PRIMARY := by
  refine ⟨by decide, rfl, by decide⟩

/-- C3 (amended): `getActiveIncumbentForPosition` returns an active
PRIMARY/SECONDARY row of the position maximal in `created_at` (or null when
no row matches); the worker-level lookup `useWorkerActiveAssignment`
restricts only to `ended_at IS NULL` for the worker — all assignment types —
and returns a row maximal in `assignment_start_date` (or null when no row
matches).  Both are pure reads. -/
theorem conflict_checker_contract (rows : List Assignment) (pid wid : String)
    (hwid : (wid == "") = false) :
    (∀ a, getActiveIncumbentForPosition rows pid = some a →
        a ∈ rows ∧ a.position_id = pid ∧
        (a.assignment_type = .PRIMARY ∨ a.assignment_type = .SECONDARY) ∧
        a.ended_at = none ∧
        ∀ b ∈ rows, b.position_id = pid →
          (b.assignment_type = .PRIMARY ∨ b.assignment_type = .SECONDARY) →
          b.ended_at = none → b.created_at ≤ a.created_at) ∧
    ((∀ a ∈ rows, ¬(a.position_id = pid ∧
        (a.assignment_type = .PRIMARY ∨ a.assignment_type = .SECONDARY) ∧
        a.ended_at = none)) →
      getActiveIncumbentForPosition rows pid = none) ∧
    (∀ a, useWorkerActiveAssignment rows wid = some a →
        a ∈ rows ∧ a.worker_id = wid ∧ a.ended_at = none ∧
        ∀ b ∈ rows, b.worker_id = wid → b.ended_at = none →
          b.assignment_start_date ≤ a.assignment_start_date) ∧
    ((∀ a ∈ rows, ¬(a.worker_id = wid ∧ a.ended_at = none)) →
      useWorkerActiveAssignment rows wid = none) := by
  have hposfilter : ∀ x : Assignment,
      (decide (x.position_id = pid) &&
        (decide (x.assignment_type = .PRIMARY) ||
          decide (x.assignment_type = .SECONDARY)) &&
        decide (x.ended_at = none)) = true ↔
      (x.position_id = pid ∧
        (x.assignment_type = .PRIMARY ∨ x.assignment_type = .SECONDARY) ∧
        x.ended_at = none) := by
    intro x
    simp [and_assoc]
  refine ⟨?_, ?_, ?_, ?_⟩
  · intro a ha
    unfold getActiveIncumbentForPosition at ha
    by_cases hb : (jsTrim pid == "") = true
    · rw [if_pos hb] at ha
      cases ha
    · rw [if_neg hb] at ha
      rw [take_one_head] at ha
      obtain ⟨hmem, hmax⟩ := head_insertionSort_max ha
      have hprops := List.mem_filter.mp hmem
      obtain ⟨hmem', hmatch⟩ := hprops
      rw [hposfilter] at hmatch
      refine ⟨hmem', hmatch.1, hmatch.2.1, hmatch.2.2, ?_⟩
      intro b hbmem hb1 hb2 hb3
      exact hmax b (List.mem_filter.mpr ⟨hbmem, (hposfilter b).mpr ⟨hb1, hb2, hb3⟩⟩)
  · intro hnone
    unfold getActiveIncumbentForPosition
    by_cases hb : (jsTrim pid == "") = true
    · rw [if_pos hb]
    · rw [if_neg hb]
      have hfil : rows.filter (fun a =>
          decide (a.position_id = pid) &&
          (decide (a.assignment_type = .PRIMARY) ||
            decide (a.assignment_type = .SECONDARY)) &&
          decide (a.ended_at = none)) = [] := by
        rw [List.filter_eq_nil_iff]
        intro a hamem hmatch
        exact hnone a hamem ((hposfilter a).mp hmatch)
      rw [hfil]
      rfl
  · intro a ha
    unfold useWorkerActiveAssignment listAssignmentsByWorker listAssignments at ha
    dsimp only at ha
    obtain ⟨hmem, hmax⟩ := head_insertionSort_max ha
    have hmem' := (List.mem_filter.mp hmem).1
    have hmatch := (List.mem_filter.mp hmem).2
    have hprops : a.ended_at = none ∧ a.worker_id = wid := by
      revert hmatch
      simp [matchesListFilters, optStrMatch, hwid]
    refine ⟨hmem', hprops.2, hprops.1, ?_⟩
    intro b hbmem hb1 hb2
    refine hmax b (List.mem_filter.mpr ⟨hbmem, ?_⟩)
    simp [matchesListFilters, optStrMatch, hwid, hb1, hb2]
  · intro hnone
    unfold useWorkerActiveAssignment listAssignmentsByWorker listAssignments
    dsimp only
    have hfil : rows.filter (matchesListFilters
        { workerId := some wid, includeEnded := false }) = [] := by
      rw [List.filter_eq_nil_iff]
      intro a hamem hmatch
      have : a.ended_at = none ∧ a.worker_id = wid := by
        revert hmatch
        simp [matchesListFilters, optStrMatch, hwid]
      exact hnone a hamem ⟨this.2, this.1⟩
    rw [hfil]
    rfl

/-- Witness for C3: on the singleton TEMP_COVERAGE store the position-level
check finds no incumbent for a different position, and the worker-level
lookup is null for a worker with no active rows. -/
theorem conflict_checker_contract_witness :
    getActiveIncumbentForPosition [exTempRow] "pos2" = none ∧
    useWorkerActiveAssignment [exTempRow] "w2" = none :=
  ⟨(conflict_checker_contract [exTempRow] "pos2" "w2" (by decide)).2.1
      (by decide),
    (conflict_checker_contract [exTempRow] "pos2" "w2" (by decide)).2.2.2
      (by decide)⟩

/-- C1: a new-assignment request for a worker with no active PRIMARY
resolves to PRIMARY with `requiresOverride = false` and writes a PRIMARY
row; for a worker with an active PRIMARY it resolves to SECONDARY with
`requiresOverride = true`, the write is rejected (nothing is written) when
the override reason is blank, and with a non-empty reason a SECONDARY row
carrying that reason is written. -/
theorem newAssignment_resolution (st : ServiceState) (meta : RowMeta)
    (todayIsoDate : String)
    (projectId positionId workerId startDate rotationSchedule overrideReason : String)
    (hw : (jsTrim workerId == "") = false)
    (hpj : (jsTrim projectId == "") = false)
    (hpos : (jsTrim positionId == "") = false)
    (hsd : (startDate == "") = false)
    (hrot : (jsTrim rotationSchedule == "") = false) :
    ((¬ ∃ a ∈ st.assignments, a.worker_id = workerId ∧
        a.assignment_type = .PRIMARY ∧ a.ended_at = none) →
      resolveType st.assignments workerId = (.PRIMARY, false) ∧
      ∃ r, newAssignmentSubmit st meta todayIsoDate projectId positionId workerId
          startDate rotationSchedule overrideReason =
        ({ st with assignments := st.assignments ++ [r] }, some (.ok r)) ∧
        r.assignment_type = .PRIMARY) ∧
    ((∃ a ∈ st.assignments, a.worker_id = workerId ∧
        a.assignment_type = .PRIMARY ∧ a.ended_at = none) →
      resolveType st.assignments workerId = (.SECONDARY, true) ∧
      ((jsTrim overrideReason == "") = true →
        newAssignmentSubmit st meta todayIsoDate projectId positionId workerId
          startDate rotationSchedule overrideReason = (st, none)) ∧
      ((jsTrim overrideReason == "") = false →
        ∃ r, newAssignmentSubmit st meta todayIsoDate projectId positionId workerId
            startDate rotationSchedule overrideReason =
          ({ st with assignments := st.assignments ++ [r] }, some (.ok r)) ∧
          r.assignment_type = .SECONDARY ∧
          r.override_reason = some (jsTrim overrideReason))) := by
  have hcs : canSubmit projectId positionId workerId startDate rotationSchedule = true := by
    unfold canSubmit
    rw [nonblank_nonempty hpj, nonblank_nonempty hpos, nonblank_nonempty hw, hsd, hrot]
    rfl
  have hwb : isBlank (some workerId) = false := by rw [isBlank_some]; exact hw
  have hpjb : isBlank (some projectId) = false := by rw [isBlank_some]; exact hpj
  have hposb : isBlank (some positionId) = false := by rw [isBlank_some]; exact hpos
  constructor
  · intro hno
    have hlook : activePrimaryByWorkerId st.assignments workerId = none := by
      cases hl : activePrimaryByWorkerId st.assignments workerId with
      | none => rfl
      | some x =>
          exact absurd ((activePrimaryByWorkerId_isSome_iff _ _).mp
            (by rw [hl]; rfl)) hno
    constructor
    · unfold resolveType requiresOverride
      rw [hlook]
      rfl
    · unfold newAssignmentSubmit
      rw [hcs, hlook]
      dsimp only
      rw [assignPrimary_ok st meta todayIsoDate _ hwb hpjb hposb]
      exact ⟨_, rfl, rfl⟩
  · intro hyes
    obtain ⟨x, hx⟩ : ∃ x, activePrimaryByWorkerId st.assignments workerId = some x :=
      Option.isSome_iff_exists.mp ((activePrimaryByWorkerId_isSome_iff _ _).mpr hyes)
    refine ⟨?_, ?_, ?_⟩
    · unfold resolveType requiresOverride
      rw [hx]
      rfl
    · intro hbr
      unfold newAssignmentSubmit
      rw [hcs, hx]
      dsimp only
      rw [hbr]
      rfl
    · intro hbr
      unfold newAssignmentSubmit
      rw [hcs, hx]
      dsimp only
      rw [hbr]
      rw [assignSecondary_ok st meta todayIsoDate _ hwb hpjb hposb
        (toNullIfBlank_some_trimmed hbr)]
      exact ⟨_, rfl, rfl, rfl⟩

/-- Witness for C1: on the empty store a request for w1 resolves to PRIMARY
and writes a PRIMARY row; on a store where w1 already has an active PRIMARY
the request resolves to SECONDARY and a blank override reason writes
nothing, while the reason `"covering shortage"` produces a SECONDARY row
carrying it. -/
theorem newAssignment_resolution_witness :
    (resolveType ([] : List Assignment) "w1" = (.PRIMARY, false) ∧
      ∃ r, newAssignmentSubmit exState0 exMeta "2026-01-02"
          "p1" "pos1" "w1" "2026-01-02" "14/14" "covering shortage" =
        ({ exState0 with assignments := exState0.assignments ++ [r] }, some (.ok r)) ∧
        r.assignment_type = .PRIMARY) ∧
    resolveType [exActiveRow] "w1" = (.SECONDARY, true) ∧
    newAssignmentSubmit { assignments := [exActiveRow], audit_logs := [] }
      exMeta "2026-01-02" "p2" "pos2" "w1" "2026-01-02" "14/14" " " =
      ({ assignments := [exActiveRow], audit_logs := [] }, none) ∧
    ∃ r, newAssignmentSubmit { assignments := [exActiveRow], audit_logs := [] }
        exMeta "2026-01-02" "p2" "pos2" "w1" "2026-01-02" "14/14"
        "covering shortage" =
      ({ assignments := [exActiveRow, r], audit_logs := [] }, some (.ok r)) ∧
      r.assignment_type = .SECONDARY ∧
      r.override_reason = some (jsTrim "covering shortage") := by
  have hprim := (newAssignment_resolution exState0 exMeta "2026-01-02"
    "p1" "pos1" "w1" "2026-01-02" "14/14" "covering shortage"
    (by decide) (by decide) (by decide) (by decide) (by decide)).1 (by decide)
  have hsec := (newAssignment_resolution
    { assignments := [exActiveRow], audit_logs := [] }
    exMeta "2026-01-02" "p2" "pos2" "w1" "2026-01-02" "14/14" " "
    (by decide) (by decide) (by decide) (by decide) (by decide)).2
    ⟨exActiveRow, by decide, rfl, rfl, rfl⟩
  have hsec2 := (newAssignment_resolution
    { assignments := [exActiveRow], audit_logs := [] }
    exMeta "2026-01-02" "p2" "pos2" "w1" "2026-01-02" "14/14" "covering shortage"
    (by decide) (by decide) (by decide) (by decide) (by decide)).2
    ⟨exActiveRow, by decide, rfl, rfl, rfl⟩
  obtain ⟨r, hr, hr2, hr3⟩ := hsec2.2.2 (by decide)
  exact ⟨hprim, hsec.1, hsec.2.1 (by decide), r, hr, hr2, hr3⟩

end ProjoWeb
